import Mathlib

/-!
Verification of the SIEMply remote-execution and job-orchestration engine.

A shallow embedding of the core modules:
  backend/automation/ssh_client.py   (connection manager, command runner)
  backend/automation/utils.py        (run_command_with_timeout)
  backend/installers/splunk.py       (forwarder / enterprise install procedures)
  backend/installers/cribl.py        (leader / worker install procedures)
  backend/installers/custom.py       (custom command procedure)
  backend/api/jobs.py                (job engine: submit, dispatch, cancel)

Remote I/O is abstracted by an oracle assigning to each command string the
outcome of its one execution; everything else is translated line by line from
the Python source.  Python dictionaries whose key set is statically known on
every control path are rendered as Lean structures, with `Option` fields for
keys that are only present on some paths (`none` = key absent).
-/

/-- Python substring test `pat in s`, on the underlying character lists
(an empty pattern is a substring of everything, as in Python). -/
def strInGo (pat : List Char) : List Char → Bool
  | [] => false
  | c :: cs => pat.isPrefixOf (c :: cs) || strInGo pat cs

/-- Python `pat in s` for strings. -/
def strIn (pat s : String) : Bool :=
  if pat = "" then true else strInGo pat.data s.data

/-- Host row (backend/models/host.py) restricted to the connection fields the
automation layer reads. -/
structure Host where
  id : Nat
  hostname : String
  ip_address : String
  port : Nat
  username : String
  password : Option String
  ssh_key_path : Option String
deriving DecidableEq, Repr

/-- Outcome of one `run_command_with_timeout` interaction with the remote
side: `ssh_client.connect()` either raises `SSHConnectionError`
(`connectFail`), or the session is established and the awaited
`execute_command` returns a (return code, stdout, stderr) triple, exceeds the
`asyncio.wait_for` bound, or raises an `SSHClientError` / other exception. -/
inductive SSHRun
  | connectFail (msg : String)
  | runOk (return_code : Int) (stdout stderr : String)
  | runTimeout
  | runSSHError (msg : String)
  | runOtherError (msg : String)
deriving DecidableEq, Repr

/-- A remote world: what happens when a given command string is executed once
over SSH. -/
abbrev Exec := String → SSHRun

/-- The result dictionary built by `run_command_with_timeout`
(backend/automation/utils.py, lines 57-117).  The five keys written at entry
(`success`, `host_id`, `command`, `return_code`, `timed_out`) are plain
fields; `stdout`, `stderr` and `message` are only added on some paths and are
`Option` fields. -/
structure CmdResult where
  success : Bool
  host_id : Nat
  command : String
  return_code : Option Int
  timed_out : Bool
  stdout : Option String := none
  stderr : Option String := none
  message : Option String := none
deriving DecidableEq, Repr

/-- Session open/close actions performed on the SSH client. -/
inductive SessionEvent
  | opened
  | closed
deriving DecidableEq, Repr

/-- `run_command_with_timeout(host, command, timeout, log_output)` together
with the session events its control path performs.  Translated from
backend/automation/utils.py lines 57-117: the result dictionary starts with
the five fixed keys; the `try` block connects, awaits the command, fills the
result and disconnects; each `except` arm only records a message — none of
them disconnects, and there is no `finally` block. -/
def run_command_with_timeout_full (host : Host) (command : String)
    (outcome : SSHRun) (timeout : Nat := 60) (log_output : Bool := true) :
    CmdResult × List SessionEvent :=
  let result : CmdResult :=
    { success := false, host_id := host.id, command := command,
      return_code := none, timed_out := false }
  match outcome with
  | .connectFail msg =>
      ({ result with message := some ("Connection failed: " ++ msg) }, [])
  | .runOk rc out err =>
      let result := { result with return_code := some rc, success := rc == 0 }
      let result :=
        if log_output then { result with stdout := some out, stderr := some err }
        else result
      (result, [.opened, .closed])
  | .runTimeout =>
      ({ result with timed_out := true,
                     message := some ("Command timed out after " ++ toString timeout ++ " seconds") },
       [.opened])
  | .runSSHError msg =>
      ({ result with message := some ("SSH error: " ++ msg) }, [.opened])
  | .runOtherError msg =>
      ({ result with message := some ("Unexpected error: " ++ msg) }, [.opened])

/-- The result dictionary of `run_command_with_timeout`. -/
def run_command_with_timeout (host : Host) (command : String)
    (outcome : SSHRun) (timeout : Nat := 60) (log_output : Bool := true) :
    CmdResult :=
  (run_command_with_timeout_full host command outcome timeout log_output).1

/-- A list of session events is balanced when every opened session was
closed. -/
def sessionsBalanced (evs : List SessionEvent) : Bool :=
  evs.count .opened == evs.count .closed

/-- Session events of the `get_ssh_client` async context manager
(backend/automation/ssh_client.py lines 236-260): connect inside `try`,
yield, and a `finally` that always disconnects.  When the connect raises, no
session was established and `disconnect` is a no-op (`self.client` is still
`None`); whether the body raises or not, the `finally` still runs. -/
def get_ssh_client_sessions (connectOk : Bool) (bodyRaises : Bool) :
    List SessionEvent :=
  if connectOk then
    (if bodyRaises then [.opened, .closed] else [.opened, .closed])
  else []

/-- `CommandResult` as built by `AsyncSSHClient.run`
(backend/automation/ssh_client.py lines 213-218). -/
structure CommandResult where
  returncode : Int
  stdout : String
  stderr : String
deriving DecidableEq, Repr

/-- `AsyncSSHClient.run` (backend/automation/ssh_client.py lines 226-233):
the underlying `execute_command` either returns a triple or raises; any
exception is mapped to `CommandResult(1, "", str(e))`. -/
def AsyncSSHClient.run (outcome : Except String (Int × String × String)) :
    CommandResult :=
  match outcome with
  | .ok (rc, out, err) => { returncode := rc, stdout := out, stderr := err }
  | .error e => { returncode := 1, stdout := "", stderr := e }

/-- The retry loop of `SIEMplySSHClient.connect`
(backend/automation/ssh_client.py lines 84-134) against a target on which
attempt `k` (0-based) fails with exception text `errs k`.  State is
(`retries_left`, attempts made, sleeps performed, last exception); after each
failed attempt `retries_left` is decremented and, if attempts remain, the
loop sleeps `2 ^ (retries - retries_left - 1)` seconds. -/
def connectLoopGo (retries : Nat) (errs : Nat → String) :
    Nat → Nat → List Nat → Option String → Nat × List Nat × Option String
  | 0, attempts, sleeps, lastExc => (attempts, sleeps, lastExc)
  | retries_left + 1, attempts, sleeps, _lastExc =>
      let lastExc' := some (errs attempts)
      if retries_left > 0 then
        let backoff := 2 ^ (retries - retries_left - 1)
        connectLoopGo retries errs retries_left (attempts + 1)
          (sleeps ++ [backoff]) lastExc'
      else
        connectLoopGo retries errs retries_left (attempts + 1) sleeps lastExc'

/-- Message of the `SSHConnectionError` raised when all retries failed
(ssh_client.py lines 131-134); `elapsed` renders the wall-clock time
measured from `start_time`. -/
def connectFailureMessage (host : String) (retries : Nat) (elapsed : String)
    (lastExc : String) : String :=
  "Failed to connect to " ++ host ++ " after " ++ toString retries ++
    " attempts (" ++ elapsed ++ "s): " ++ lastExc

/-- `SIEMplySSHClient.connect` against an always-failing target: the number
of attempts issued, the backoff sleeps performed in order, and the message of
the `SSHConnectionError` finally raised. -/
def connect_always_failing (host : String) (retries : Nat)
    (errs : Nat → String) (elapsed : String) : Nat × List Nat × String :=
  let (attempts, sleeps, lastExc) := connectLoopGo retries errs retries 0 [] none
  (attempts, sleeps,
    connectFailureMessage host retries elapsed (lastExc.getD "None"))

/-- A job's `parameters` dictionary, projected onto the keys recognized by
the procedures and routes of this codebase (a `none` field means the key is
absent from the dictionary).  Keys never read by any modelled function are
irrelevant to the embedding and omitted. -/
structure ParamDict where
  version : Option String := none
  install_dir : Option String := none
  admin_password : Option String := none
  user : Option String := none
  group : Option String := none
  web_port : Option Int := none
  api_port : Option Int := none
  leader_host : Option String := none
  leader_port : Option Int := none
  authentication_token : Option String := none
  command : Option String := none
  run_user : Option String := none
  is_dry_run : Option Bool := none
deriving DecidableEq, Repr

/-- Python key-presence test `k in parameters` for the recognized keys. -/
def ParamDict.hasKey (p : ParamDict) (k : String) : Bool :=
  if k = "version" then p.version.isSome
  else if k = "install_dir" then p.install_dir.isSome
  else if k = "admin_password" then p.admin_password.isSome
  else if k = "user" then p.user.isSome
  else if k = "group" then p.group.isSome
  else if k = "web_port" then p.web_port.isSome
  else if k = "api_port" then p.api_port.isSome
  else if k = "leader_host" then p.leader_host.isSome
  else if k = "leader_port" then p.leader_port.isSome
  else if k = "authentication_token" then p.authentication_token.isSome
  else if k = "command" then p.command.isSome
  else if k = "run_user" then p.run_user.isSome
  else if k = "is_dry_run" then p.is_dry_run.isSome
  else false

/-- The result dictionary built by the install procedures
(backend/installers/splunk.py, cribl.py).  `success`, `host_id`, `hostname`,
`is_dry_run` and `commands` are written at entry and always present;
`message`, `skipped`, `return_code`, `stdout`, `stderr`, `timed_out` and
`verification` only appear on some paths (`none` / `false` = key absent).
The `parameters` echo key and the extra `command` key copied in by
`dict.update` are never read back and are not tracked. -/
structure InstallResult where
  success : Bool
  host_id : Nat
  hostname : String
  is_dry_run : Bool
  commands : List String
  message : Option String := none
  skipped : Bool := false
  return_code : Option Int := none
  stdout : Option String := none
  stderr : Option String := none
  timed_out : Option Bool := none
  verification : Option CmdResult := none
deriving DecidableEq, Repr

/-- Python `result.update(cmd_result)` for an installer result dictionary:
keys always present in the command-result dictionary overwrite the installer
entry; `stdout`, `stderr` and `message` only overwrite when present. -/
def InstallResult.updateCmd (r : InstallResult) (c : CmdResult) : InstallResult :=
  { r with
    success := c.success,
    return_code := c.return_code,
    timed_out := some c.timed_out,
    stdout := match c.stdout with | some s => some s | none => r.stdout,
    stderr := match c.stderr with | some s => some s | none => r.stderr,
    message := match c.message with | some m => some m | none => r.message }

/-- State threaded through an install procedure: the result dictionary under
construction and the trace of commands actually executed on the remote host
(the observable effect of each `await run_command_with_timeout(...)`). -/
structure IState where
  result : InstallResult
  trace : List String
deriving DecidableEq, Repr

/-- One step of the shape repeated throughout the installers:

    result["commands"].append(cmd)
    if not is_dry_run:
        r = await run_command_with_timeout(host, cmd, timeout)
        if not r["success"]:
            result["message"] = failMsg
            result.update(r)
            return result

`Except.error` carries the early-returned state. -/
def installStep (host : Host) (ex : Exec) (is_dry_run : Bool)
    (cmd failMsg : String) (timeout : Nat) (st : IState) :
    Except IState IState :=
  let st := { st with result := { st.result with commands := st.result.commands ++ [cmd] } }
  if is_dry_run then .ok st
  else
    let r := run_command_with_timeout host cmd (ex cmd) timeout
    let st := { st with trace := st.trace ++ [cmd] }
    if r.success then .ok st
    else .error { st with
      result := ({ st.result with message := some failMsg }).updateCmd r }

/-- Existence check of the forwarder install marker (splunk.py line 78). -/
def uf_check_cmd (install_dir : String) : String :=
  "[ -d " ++ install_dir ++ "/splunkforwarder ] && echo \x27Found\x27 || echo \x27Not Found\x27"

/-- Download URL for the forwarder package (splunk.py line 99). -/
def uf_download_url (version : String) : String :=
  "https://download.splunk.com/products/universalforwarder/releases/" ++ version ++
    "/linux/splunkforwarder-" ++ version ++ "-f74036626f0c-Linux-x86_64.tgz"

/-- Download command for the forwarder package (splunk.py line 100). -/
def uf_download_cmd (version : String) : String :=
  "cd /tmp/splunk_install && wget -O splunkforwarder.tgz \x27" ++ uf_download_url version ++ "\x27"

/-- Create-if-absent of the service user and group (splunk.py line 113,
cribl.py lines 116 and 383). -/
def create_user_cmd (user group : String) : String :=
  "getent group " ++ group ++ " || groupadd " ++ group ++ "; getent passwd " ++
    user ++ " || useradd -m -g " ++ group ++ " " ++ user

/-- Extraction command for the forwarder package (splunk.py line 124). -/
def uf_extract_cmd (install_dir : String) : String :=
  "cd " ++ install_dir ++ " && tar -xzf /tmp/splunk_install/splunkforwarder.tgz"

/-- Ownership assignment for the forwarder tree (splunk.py line 137). -/
def uf_chown_cmd (user group install_dir : String) : String :=
  "chown -R " ++ user ++ ":" ++ group ++ " " ++ install_dir ++ "/splunkforwarder"

/-- Seed-configuration write for the admin credential (splunk.py lines 148-153). -/
def uf_seed_cmd (install_dir admin_password : String) : String :=
  "cat > " ++ install_dir ++
    "/splunkforwarder/etc/system/local/user-seed.conf << EOF\n[user_info]\nUSERNAME = admin\nPASSWORD = " ++
    admin_password ++ "\nEOF\n"

/-- Service start with license acceptance (splunk.py line 164). -/
def uf_start_cmd (install_dir : String) : String :=
  "cd " ++ install_dir ++ "/splunkforwarder && ./bin/splunk start --accept-license --no-prompt --answer-yes"

/-- Boot-start enablement (splunk.py line 177). -/
def uf_boot_cmd (install_dir user : String) : String :=
  "cd " ++ install_dir ++ "/splunkforwarder && ./bin/splunk enable boot-start -user " ++ user

/-- Post-install verification command (splunk.py line 189). -/
def uf_verify_cmd (install_dir : String) : String :=
  install_dir ++ "/splunkforwarder/bin/splunk status"

/-- Install procedure for the Splunk Universal Forwarder
(backend/installers/splunk.py lines 24-214), returning the result dictionary
and the trace of commands executed on the host.  The provided parameters are
merged over the module defaults; the final host-role append touches only the
host inventory row and is outside the modelled state. -/
def install_splunk_universal_forwarder (host : Host)
    (parameters : Option ParamDict) (ex : Exec) : InstallResult × List String :=
  let params := parameters.getD {}
  let is_dry_run := params.is_dry_run.getD false
  let version := params.version.getD "9.1.1"
  let install_dir := params.install_dir.getD "/opt"
  let admin_password := params.admin_password.getD "changeme"
  let user := params.user.getD "splunk"
  let group := params.group.getD "splunk"
  let result : InstallResult :=
    { success := false, host_id := host.id, hostname := host.hostname,
      is_dry_run := is_dry_run, commands := [] }
  let check_cmd := uf_check_cmd install_dir
  let check_result := run_command_with_timeout host check_cmd (ex check_cmd)
  let trace := [check_cmd]
  if strIn "Found" (check_result.stdout.getD "") then
    ({ result with success := true,
                   message := some "Splunk Universal Forwarder is already installed",
                   skipped := true }, trace)
  else
    let go : Except IState IState := do
      let st ← installStep host ex is_dry_run "mkdir -p /tmp/splunk_install"
        "Failed to create temporary directory" 60 { result := result, trace := trace }
      let st ← installStep host ex is_dry_run (uf_download_cmd version)
        "Failed to download Splunk UF installer" 300 st
      let st ← installStep host ex is_dry_run (create_user_cmd user group)
        "Failed to create Splunk user/group" 60 st
      let st ← installStep host ex is_dry_run (uf_extract_cmd install_dir)
        "Failed to extract Splunk UF" 120 st
      let st ← installStep host ex is_dry_run (uf_chown_cmd user group install_dir)
        "Failed to set ownership on Splunk UF directory" 60 st
      let st ← installStep host ex is_dry_run (uf_seed_cmd install_dir admin_password)
        "Failed to create user-seed.conf" 60 st
      let st ← installStep host ex is_dry_run (uf_start_cmd install_dir)
        "Failed to start Splunk UF" 180 st
      let st ← installStep host ex is_dry_run (uf_boot_cmd install_dir user)
        "Failed to enable boot-start" 60 st
      let st ←
        if is_dry_run then pure st
        else
          let verify_cmd := uf_verify_cmd install_dir
          let vr := run_command_with_timeout host verify_cmd (ex verify_cmd)
          let st := { st with trace := st.trace ++ [verify_cmd] }
          if vr.success then
            pure { st with result := { st.result with verification := some vr } }
          else
            throw { st with result :=
              ({ st.result with
                 message := some "Installation completed but verification failed" }).updateCmd vr }
      let cleanup_cmd := "rm -rf /tmp/splunk_install"
      let st := { st with result :=
        { st.result with commands := st.result.commands ++ [cleanup_cmd] } }
      let st :=
        if is_dry_run then st
        else { st with trace := st.trace ++ [cleanup_cmd] }
      pure { st with result :=
        { st.result with
          success := true,
          message := some "Splunk Universal Forwarder installed successfully" } }
    match go with
    | .ok st => (st.result, st.trace)
    | .error st => (st.result, st.trace)

/-- Existence check of the enterprise install marker (splunk.py line 274). -/
def ent_check_cmd (install_dir : String) : String :=
  "[ -d " ++ install_dir ++ "/splunk ] && echo \x27Found\x27 || echo \x27Not Found\x27"

/-- Download command for the enterprise package (splunk.py lines 295-296). -/
def ent_download_cmd (version : String) : String :=
  "cd /tmp/splunk_install && wget -O splunk.tgz \x27https://download.splunk.com/products/splunk/releases/" ++
    version ++ "/linux/splunk-" ++ version ++ "-f74036626f0c-Linux-x86_64.tgz\x27"

/-- Seed-configuration write for the enterprise admin credential
(splunk.py lines 344-349). -/
def ent_seed_cmd (install_dir admin_password : String) : String :=
  "cat > " ++ install_dir ++
    "/splunk/etc/system/local/user-seed.conf << EOF\n[user_info]\nUSERNAME = admin\nPASSWORD = " ++
    admin_password ++ "\nEOF\n"

/-- Web-port configuration write (splunk.py lines 361-365). -/
def ent_web_conf_cmd (install_dir : String) (web_port : Int) : String :=
  "cat > " ++ install_dir ++
    "/splunk/etc/system/local/web.conf << EOF\n[settings]\nhttpport = " ++
    toString web_port ++ "\nEOF\n"

/-- Install procedure for Splunk Enterprise
(backend/installers/splunk.py lines 217-426). -/
def install_splunk_enterprise (host : Host) (parameters : Option ParamDict)
    (ex : Exec) : InstallResult × List String :=
  let params := parameters.getD {}
  let is_dry_run := params.is_dry_run.getD false
  let version := params.version.getD "9.1.1"
  let install_dir := params.install_dir.getD "/opt"
  let admin_password := params.admin_password.getD "changeme"
  let user := params.user.getD "splunk"
  let group := params.group.getD "splunk"
  let web_port := params.web_port.getD 8000
  let result : InstallResult :=
    { success := false, host_id := host.id, hostname := host.hostname,
      is_dry_run := is_dry_run, commands := [] }
  let check_cmd := ent_check_cmd install_dir
  let check_result := run_command_with_timeout host check_cmd (ex check_cmd)
  let trace := [check_cmd]
  if strIn "Found" (check_result.stdout.getD "") then
    ({ result with success := true,
                   message := some "Splunk Enterprise is already installed",
                   skipped := true }, trace)
  else
    let go : Except IState IState := do
      let st ← installStep host ex is_dry_run "mkdir -p /tmp/splunk_install"
        "Failed to create temporary directory" 60 { result := result, trace := trace }
      let st ← installStep host ex is_dry_run (ent_download_cmd version)
        "Failed to download Splunk Enterprise installer" 300 st
      let st ← installStep host ex is_dry_run (create_user_cmd user group)
        "Failed to create Splunk user/group" 60 st
      let st ← installStep host ex is_dry_run
        ("cd " ++ install_dir ++ " && tar -xzf /tmp/splunk_install/splunk.tgz")
        "Failed to extract Splunk Enterprise" 180 st
      let st ← installStep host ex is_dry_run
        ("chown -R " ++ user ++ ":" ++ group ++ " " ++ install_dir ++ "/splunk")
        "Failed to set ownership on Splunk directory" 60 st
      let st ← installStep host ex is_dry_run (ent_seed_cmd install_dir admin_password)
        "Failed to create user-seed.conf" 60 st
      let st ←
        if web_port != 8000 then
          installStep host ex is_dry_run (ent_web_conf_cmd install_dir web_port)
            "Failed to configure web port" 60 st
        else pure st
      let st ← installStep host ex is_dry_run
        ("cd " ++ install_dir ++ "/splunk && ./bin/splunk start --accept-license --no-prompt --answer-yes")
        "Failed to start Splunk Enterprise" 300 st
      let st ← installStep host ex is_dry_run
        ("cd " ++ install_dir ++ "/splunk && ./bin/splunk enable boot-start -user " ++ user)
        "Failed to enable boot-start" 60 st
      let st ←
        if is_dry_run then pure st
        else
          let verify_cmd := install_dir ++ "/splunk/bin/splunk status"
          let vr := run_command_with_timeout host verify_cmd (ex verify_cmd)
          let st := { st with trace := st.trace ++ [verify_cmd] }
          if vr.success then
            pure { st with result := { st.result with verification := some vr } }
          else
            throw { st with result :=
              ({ st.result with
                 message := some "Installation completed but verification failed" }).updateCmd vr }
      let cleanup_cmd := "rm -rf /tmp/splunk_install"
      let st := { st with result :=
        { st.result with commands := st.result.commands ++ [cleanup_cmd] } }
      let st :=
        if is_dry_run then st
        else { st with trace := st.trace ++ [cleanup_cmd] }
      pure { st with result :=
        { st.result with
          success := true,
          message := some "Splunk Enterprise installed successfully" } }
    match go with
    | .ok st => (st.result, st.trace)
    | .error st => (st.result, st.trace)

/-- Existence check of the Cribl install marker (cribl.py lines 81 and 348). -/
def cribl_check_cmd (install_dir : String) : String :=
  "[ -d " ++ install_dir ++ "/cribl ] && echo \x27Found\x27 || echo \x27Not Found\x27"

/-- Download command for the Cribl package (cribl.py lines 102-103 and 369-370). -/
def cribl_download_cmd (version : String) : String :=
  "cd /tmp/cribl_install && wget -O cribl.tgz \x27https://cdn.cribl.io/dl/cribl-" ++
    version ++ "-linux-x64.tgz\x27"

/-- Extraction command for the Cribl package (cribl.py lines 127 and 394). -/
def cribl_extract_cmd (install_dir : String) : String :=
  "cd " ++ install_dir ++ " && tar -xzf /tmp/cribl_install/cribl.tgz"

/-- Ownership assignment for the Cribl tree (cribl.py lines 140 and 407). -/
def cribl_chown_cmd (user group install_dir : String) : String :=
  "chown -R " ++ user ++ ":" ++ group ++ " " ++ install_dir ++ "/cribl"

/-- Admin-user creation command (cribl.py line 163). -/
def cribl_passwd_cmd (install_dir admin_password : String) : String :=
  "cd " ++ install_dir ++ "/cribl && ./bin/cribl users create -u admin -p \x27" ++
    admin_password ++ "\x27 -r admin"

/-- API-port override write (cribl.py lines 175-180). -/
def cribl_port_cmd (install_dir : String) (api_port : Int) : String :=
  "cat > " ++ install_dir ++
    "/cribl/local/_system/instance.yml << EOF\napi:\n  host: 0.0.0.0\n  port: " ++
    toString api_port ++ "\nEOF\n"

/-- Systemd unit write (cribl.py lines 191-208 and 429-446); the description
differs between the leader and the worker. -/
def cribl_systemd_cmd (description user group install_dir : String) : String :=
  "cat > /etc/systemd/system/cribl.service << EOF\n[Unit]\nDescription=" ++
    description ++ "\nAfter=network.target\n\n[Service]\nType=forking\nUser=" ++
    user ++ "\nGroup=" ++ group ++ "\nExecStart=" ++ install_dir ++
    "/cribl/bin/cribl start\nExecStop=" ++ install_dir ++
    "/cribl/bin/cribl stop\nRestart=on-failure\nRestartSec=5\n\n[Install]\nWantedBy=multi-user.target\nEOF\n"

/-- Install procedure for the Cribl Stream Leader
(backend/installers/cribl.py lines 24-267). -/
def install_cribl_leader (host : Host) (parameters : Option ParamDict)
    (ex : Exec) : InstallResult × List String :=
  let params := parameters.getD {}
  let is_dry_run := params.is_dry_run.getD false
  let version := params.version.getD "3.4.1"
  let install_dir := params.install_dir.getD "/opt"
  let admin_password := params.admin_password.getD "admin123"
  let user := params.user.getD "cribl"
  let group := params.group.getD "cribl"
  let api_port := params.api_port.getD 9000
  let result : InstallResult :=
    { success := false, host_id := host.id, hostname := host.hostname,
      is_dry_run := is_dry_run, commands := [] }
  let check_cmd := cribl_check_cmd install_dir
  let check_result := run_command_with_timeout host check_cmd (ex check_cmd)
  let trace := [check_cmd]
  if strIn "Found" (check_result.stdout.getD "") then
    ({ result with success := true,
                   message := some "Cribl appears to be already installed",
                   skipped := true }, trace)
  else
    let go : Except IState IState := do
      let st ← installStep host ex is_dry_run "mkdir -p /tmp/cribl_install"
        "Failed to create temporary directory" 60 { result := result, trace := trace }
      let st ← installStep host ex is_dry_run (cribl_download_cmd version)
        "Failed to download Cribl installer" 300 st
      let st ← installStep host ex is_dry_run (create_user_cmd user group)
        "Failed to create Cribl user/group" 60 st
      let st ← installStep host ex is_dry_run (cribl_extract_cmd install_dir)
        "Failed to extract Cribl" 120 st
      let st ← installStep host ex is_dry_run (cribl_chown_cmd user group install_dir)
        "Failed to set ownership on Cribl directory" 60 st
      let st ← installStep host ex is_dry_run
        ("cd " ++ install_dir ++ "/cribl && ./bin/cribl mode-master")
        "Failed to configure Cribl as leader" 60 st
      -- Configure admin password if provided: on failure the message is set
      -- and the result updated, but the procedure continues (cribl.py 161-171).
      let st ←
        if admin_password != "" then
          let passwd_cmd := cribl_passwd_cmd install_dir admin_password
          let st := { st with result :=
            { st.result with commands := st.result.commands ++ [passwd_cmd] } }
          if is_dry_run then pure st
          else
            let pr := run_command_with_timeout host passwd_cmd (ex passwd_cmd)
            let st := { st with trace := st.trace ++ [passwd_cmd] }
            if pr.success then pure st
            else pure { st with result :=
              ({ st.result with message := some "Failed to set admin password" }).updateCmd pr }
        else pure st
      let st ←
        if api_port != 9000 then
          installStep host ex is_dry_run (cribl_port_cmd install_dir api_port)
            "Failed to configure API port" 60 st
        else pure st
      -- Systemd service: the unit write returns early on failure; on success
      -- (non-dry-run only) the daemon-reload/enable command is appended and
      -- run, continuing even if it fails (cribl.py 190-226).
      let systemd_cmd := cribl_systemd_cmd "Cribl Stream Leader" user group install_dir
      let st := { st with result :=
        { st.result with commands := st.result.commands ++ [systemd_cmd] } }
      let st ←
        if is_dry_run then pure st
        else
          let sr := run_command_with_timeout host systemd_cmd (ex systemd_cmd)
          let st := { st with trace := st.trace ++ [systemd_cmd] }
          if !sr.success then
            throw { st with result :=
              ({ st.result with message := some "Failed to create systemd service" }).updateCmd sr }
          else
            let systemctl_cmd := "systemctl daemon-reload && systemctl enable cribl.service"
            let st := { st with result :=
              { st.result with commands := st.result.commands ++ [systemctl_cmd] } }
            let cr := run_command_with_timeout host systemctl_cmd (ex systemctl_cmd)
            let st := { st with trace := st.trace ++ [systemctl_cmd] }
            if cr.success then pure st
            else pure { st with result :=
              ({ st.result with message := some "Failed to enable Cribl service" }).updateCmd cr }
      let st ← installStep host ex is_dry_run "systemctl start cribl.service"
        "Failed to start Cribl service" 180 st
      let st ←
        if is_dry_run then pure st
        else
          let verify_cmd := "systemctl status cribl.service"
          let vr := run_command_with_timeout host verify_cmd (ex verify_cmd)
          let st := { st with trace := st.trace ++ [verify_cmd],
                              result := { st.result with verification := some vr } }
          if !vr.success then
            throw { st with result :=
              { st.result with
                message := some "Installation completed but verification failed" } }
          else pure st
      let cleanup_cmd := "rm -rf /tmp/cribl_install"
      let st := { st with result :=
        { st.result with commands := st.result.commands ++ [cleanup_cmd] } }
      let st :=
        if is_dry_run then st
        else { st with trace := st.trace ++ [cleanup_cmd] }
      pure { st with result :=
        { st.result with
          success := true,
          message := some "Cribl Stream Leader installed successfully" } }
    match go with
    | .ok st => (st.result, st.trace)
    | .error st => (st.result, st.trace)

/-- Worker-mode configuration command (cribl.py line 418). -/
def cribl_worker_cmd (install_dir leader_host : String) (leader_port : Int)
    (auth_token : String) : String :=
  "cd " ++ install_dir ++ "/cribl && ./bin/cribl mode-worker -H " ++
    leader_host ++ ":" ++ toString leader_port ++ " -u " ++ auth_token

/-- Install procedure for the Cribl Stream Worker
(backend/installers/cribl.py lines 270-505).  The two missing-parameter early
returns build a dictionary without the host/commands keys; the embedding
fills those fields with the host values and `[]`, a difference no modelled
consumer observes (dispatch reads only success, return_code, stdout and
stderr). -/
def install_cribl_worker (host : Host) (parameters : Option ParamDict)
    (ex : Exec) : InstallResult × List String :=
  let params := parameters.getD {}
  let is_dry_run := params.is_dry_run.getD false
  let version := params.version.getD "3.4.1"
  let install_dir := params.install_dir.getD "/opt"
  let user := params.user.getD "cribl"
  let group := params.group.getD "cribl"
  if !(params.hasKey "leader_host") then
    ({ success := false, message := some "Missing required parameter: leader_host",
       host_id := host.id, hostname := host.hostname, is_dry_run := is_dry_run,
       commands := [] }, [])
  else if !(params.hasKey "authentication_token") then
    ({ success := false, message := some "Missing required parameter: authentication_token",
       host_id := host.id, hostname := host.hostname, is_dry_run := is_dry_run,
       commands := [] }, [])
  else
  let leader_host := params.leader_host.getD ""
  let leader_port := params.leader_port.getD 4200
  let auth_token := params.authentication_token.getD ""
  let result : InstallResult :=
    { success := false, host_id := host.id, hostname := host.hostname,
      is_dry_run := is_dry_run, commands := [] }
  let check_cmd := cribl_check_cmd install_dir
  let check_result := run_command_with_timeout host check_cmd (ex check_cmd)
  let trace := [check_cmd]
  if strIn "Found" (check_result.stdout.getD "") then
    ({ result with success := true,
                   message := some "Cribl appears to be already installed",
                   skipped := true }, trace)
  else
    let go : Except IState IState := do
      let st ← installStep host ex is_dry_run "mkdir -p /tmp/cribl_install"
        "Failed to create temporary directory" 60 { result := result, trace := trace }
      let st ← installStep host ex is_dry_run (cribl_download_cmd version)
        "Failed to download Cribl installer" 300 st
      let st ← installStep host ex is_dry_run (create_user_cmd user group)
        "Failed to create Cribl user/group" 60 st
      let st ← installStep host ex is_dry_run (cribl_extract_cmd install_dir)
        "Failed to extract Cribl" 120 st
      let st ← installStep host ex is_dry_run (cribl_chown_cmd user group install_dir)
        "Failed to set ownership on Cribl directory" 60 st
      let st ← installStep host ex is_dry_run
        (cribl_worker_cmd install_dir leader_host leader_port auth_token)
        "Failed to configure Cribl as worker" 60 st
      let systemd_cmd := cribl_systemd_cmd "Cribl Stream Worker" user group install_dir
      let st := { st with result :=
        { st.result with commands := st.result.commands ++ [systemd_cmd] } }
      let st ←
        if is_dry_run then pure st
        else
          let sr := run_command_with_timeout host systemd_cmd (ex systemd_cmd)
          let st := { st with trace := st.trace ++ [systemd_cmd] }
          if !sr.success then
            throw { st with result :=
              ({ st.result with message := some "Failed to create systemd service" }).updateCmd sr }
          else
            let systemctl_cmd := "systemctl daemon-reload && systemctl enable cribl.service"
            let st := { st with result :=
              { st.result with commands := st.result.commands ++ [systemctl_cmd] } }
            let cr := run_command_with_timeout host systemctl_cmd (ex systemctl_cmd)
            let st := { st with trace := st.trace ++ [systemctl_cmd] }
            if cr.success then pure st
            else pure { st with result :=
              ({ st.result with message := some "Failed to enable Cribl service" }).updateCmd cr }
      let st ← installStep host ex is_dry_run "systemctl start cribl.service"
        "Failed to start Cribl service" 180 st
      let st ←
        if is_dry_run then pure st
        else
          let verify_cmd := "systemctl status cribl.service"
          let vr := run_command_with_timeout host verify_cmd (ex verify_cmd)
          let st := { st with trace := st.trace ++ [verify_cmd],
                              result := { st.result with verification := some vr } }
          if !vr.success then
            throw { st with result :=
              { st.result with
                message := some "Installation completed but verification failed" } }
          else pure st
      let cleanup_cmd := "rm -rf /tmp/cribl_install"
      let st := { st with result :=
        { st.result with commands := st.result.commands ++ [cleanup_cmd] } }
      let st :=
        if is_dry_run then st
        else { st with trace := st.trace ++ [cleanup_cmd] }
      pure { st with result :=
        { st.result with
          success := true,
          message := some "Cribl Stream Worker installed successfully" } }
    match go with
    | .ok st => (st.result, st.trace)
    | .error st => (st.result, st.trace)

/-- User-creation command of the custom-command procedure (custom.py line 61). -/
def custom_create_user_cmd (run_user : String) : String :=
  "id -u " ++ run_user ++ " &>/dev/null || useradd -m " ++ run_user

/-- Run a custom command (backend/installers/custom.py lines 15-90).  The
missing-command early return builds a dictionary with only success, message
and return_code; the embedding fills the remaining fields with the host
values and `[]`, a difference no modelled consumer observes. -/
def run_custom_command (host : Host) (parameters : Option ParamDict)
    (ex : Exec) : InstallResult × List String :=
  match parameters with
  | none =>
      ({ success := false, message := some "Command parameter is required",
         return_code := some 1, host_id := host.id, hostname := host.hostname,
         is_dry_run := false, commands := [] }, [])
  | some params =>
    if !(params.hasKey "command") then
      ({ success := false, message := some "Command parameter is required",
         return_code := some 1, host_id := host.id, hostname := host.hostname,
         is_dry_run := false, commands := [] }, [])
    else
      let command := params.command.getD ""
      let run_user := params.run_user.getD "root"
      let is_dry_run := params.is_dry_run.getD false
      let result : InstallResult :=
        { success := false, host_id := host.id, hostname := host.hostname,
          is_dry_run := is_dry_run, commands := [] }
      let go : Except IState IState := do
        let st : IState := { result := result, trace := [] }
        let (st, exec_cmd) ←
          if run_user = "root" then
            pure (st, command)
          else do
            let st ← installStep host ex is_dry_run (custom_create_user_cmd run_user)
              ("Failed to create user " ++ run_user) 60 st
            pure (st, "su - " ++ run_user ++ " -c \x27" ++ command ++ "\x27")
        let st := { st with result :=
          { st.result with commands := st.result.commands ++ [exec_cmd] } }
        if is_dry_run then
          pure { st with result :=
            { st.result with success := true, message := some "Dry run completed" } }
        else
          let cr := run_command_with_timeout host exec_cmd (ex exec_cmd) 300
          let st := { st with trace := st.trace ++ [exec_cmd] }
          let st := { st with result := st.result.updateCmd cr }
          if cr.success then
            pure { st with result :=
              { st.result with message := some "Command executed successfully" } }
          else
            pure { st with result :=
              { st.result with message := some "Command execution failed" } }
      match go with
      | .ok st => (st.result, st.trace)
      | .error st => (st.result, st.trace)

/-- Lifecycle states of a Job.  Modelled from the spec: the Job model module
(backend/models/job.py) is not among the sources; only its re-export and the
uses `JobStatus.X.value` in backend/api/jobs.py are.  The spec (section 3)
enumerates the states pending, running, completed, failed, cancelled. -/
inductive JobStatus
  | pending
  | running
  | completed
  | failed
  | cancelled
deriving DecidableEq, Repr

/-- Procedure kinds dispatched by the job engine.  Modelled from the spec:
backend/models/job.py is not among the sources; these are the five `JobType`
members whose `.value` is matched in `_run_job` and set by the creation
routes of backend/api/jobs.py. -/
inductive JobType
  | splunk_uf_install
  | splunk_ent_install
  | cribl_worker_install
  | cribl_leader_install
  | custom_command
deriving DecidableEq, Repr

/-- The string stored in the `job_type` column.  Modelled from the spec (the
enum module is not among the sources); `_run_job` substring-tests this string
against "bash_script". -/
def JobType.value : JobType → String
  | .splunk_uf_install => "splunk_uf_install"
  | .splunk_ent_install => "splunk_ent_install"
  | .cribl_worker_install => "cribl_worker_install"
  | .cribl_leader_install => "cribl_leader_install"
  | .custom_command => "custom_command"

/-- The fields of a Job row that the jobs API reads or writes.  The
timestamps started_at / completed_at are modelled as presence flags. -/
structure JobRecord where
  job_type : JobType
  status : JobStatus
  is_dry_run : Bool
  parameters : Option ParamDict
  stdout : Option String := none
  stderr : Option String := none
  return_code : Option Int := none
  started_at : Bool := false
  completed_at : Bool := false
deriving DecidableEq, Repr

/-- The view of a procedure's result dictionary that `_run_job` reads back
(jobs.py lines 159-169): `result.get("return_code")`,
`result.get("stdout", "")`, `result.get("stderr", "")`,
`result.get("success")`. -/
structure DispatchResult where
  success : Bool
  return_code : Option Int := none
  stdout : String := ""
  stderr : String := ""
deriving DecidableEq, Repr

/-- Read-back of an installer result dictionary by `_run_job`. -/
def InstallResult.toDispatch (r : InstallResult) : DispatchResult :=
  { success := r.success, return_code := r.return_code,
    stdout := r.stdout.getD "", stderr := r.stderr.getD "" }

/-- Read-back of a command result dictionary by `_run_job`. -/
def CmdResult.toDispatch (r : CmdResult) : DispatchResult :=
  { success := r.success, return_code := r.return_code,
    stdout := r.stdout.getD "", stderr := r.stderr.getD "" }

/-- The try block of `_run_job` (jobs.py lines 104-156): selects the
procedure by job type and invokes it.  `Except.error e` models an exception
with text `e` raised inside the block (the `ValueError` of the custom branch;
the procedure calls themselves are total in this embedding); `Option.none`
would model falling through every branch with `result = None`, which cannot
happen for these five job types. -/
def dispatchTry (jt : JobType) (host : Host) (parameters : Option ParamDict)
    (job_is_dry_run : Bool) (ex : Exec) :
    Except String (Option DispatchResult) :=
  match jt with
  | .splunk_uf_install =>
      .ok (some (install_splunk_universal_forwarder host parameters ex).1.toDispatch)
  | .splunk_ent_install =>
      .ok (some (install_splunk_enterprise host parameters ex).1.toDispatch)
  | .cribl_worker_install =>
      .ok (some (install_cribl_worker host parameters ex).1.toDispatch)
  | .cribl_leader_install =>
      .ok (some (install_cribl_leader host parameters ex).1.toDispatch)
  | .custom_command =>
      let params := parameters.getD {}
      let user := params.user.getD "root"
      let command := params.command.getD ""
      if command = "" then
        .error "No command specified for custom job"
      else
        -- "bash_script" in job.job_type is tested on the stored string,
        -- which for this branch is always "custom_command" (jobs.py 130):
        -- the script arm is unreachable and the command is run directly.
        if strIn "bash_script" JobType.custom_command.value then
          .ok (some { success := false })
        else
          let command := if user != "root" then "sudo -u " ++ user ++ " " ++ command else command
          if job_is_dry_run then
            .ok (some ({ success := true } : DispatchResult))
          else
            .ok (some (run_command_with_timeout host command (ex command)).toDispatch)

/-- `_run_job` (backend/api/jobs.py lines 81-178) after the job row was
loaded (a missing row only logs and returns).  `host?` is the host lookup
result.  When the host is missing, the job is failed and the function
returns before the running transition and before `completed_at` is stamped;
otherwise the status is set to running, the try block runs, any exception is
caught and recorded as a failure with the exception text in stderr, and
`completed_at` is stamped. -/
def runJobLoaded (job : JobRecord) (host? : Option Host) (ex : Exec) :
    JobRecord :=
  match host? with
  | none => { job with status := .failed, stderr := some "Host not found" }
  | some host =>
    let job := { job with status := .running, started_at := true }
    let job :=
      match dispatchTry job.job_type host job.parameters job.is_dry_run ex with
      | .error e =>
          { job with status := .failed,
                     stderr := some ("Error executing job: " ++ e) }
      | .ok none => job
      | .ok (some r) =>
          { job with return_code := r.return_code,
                     stdout := some r.stdout,
                     stderr := some r.stderr,
                     status := if r.success then .completed else .failed }
    { job with completed_at := true }

/-- `cancel_job` (backend/api/jobs.py lines 382-403): only a pending job may
be cancelled; otherwise an HTTP 400 error is raised and the row is left
untouched. -/
def cancel_job (job : JobRecord) : Except Nat JobRecord :=
  if job.status != .pending then .error 400
  else .ok { job with status := .cancelled, completed_at := true }

/-- Required-parameter names checked by `create_splunk_uf_install_job`
(jobs.py line 202). -/
def uf_required_params : List String := ["version", "user"]

/-- `create_splunk_uf_install_job` (backend/api/jobs.py lines 181-230):
404 when the host does not exist, 422 when a required parameter KEY is
absent from the parameters dictionary (values are not inspected), else a
pending job row is created and its dispatch scheduled. -/
def create_splunk_uf_install_job (hostExists : Bool) (parameters : ParamDict)
    (is_dry_run : Bool) : Except Nat JobRecord :=
  if !hostExists then .error 404
  else
    let missing_params := uf_required_params.filter (fun p => !(parameters.hasKey p))
    if missing_params != [] then .error 422
    else .ok { job_type := .splunk_uf_install, status := .pending,
               is_dry_run := is_dry_run, parameters := some parameters }

/-! Theorems.  Concrete inputs used by witnesses and counterexamples. -/

/-- A concrete host row. -/
def host0 : Host :=
  { id := 1, hostname := "web01", ip_address := "10.0.0.5", port := 22,
    username := "root", password := some "pw", ssh_key_path := none }

/-- A remote world on which every command succeeds with empty output. -/
def exAllOk : Exec := fun _ => .runOk 0 "" ""

/-- C10: `run_command_with_timeout` is total (it cannot raise) and its result
dictionary always carries the keys success, host_id, command, return_code and
timed_out, with success true exactly when the executed command returned 0; on
timeout, timed_out is true and return_code stays None; and
`AsyncSSHClient.run` maps any exception to a CommandResult with returncode 1,
empty stdout and the exception text as stderr. -/
theorem run_command_result_shape (host : Host) (command : String)
    (outcome : SSHRun) (timeout : Nat) (log_output : Bool) :
    (run_command_with_timeout host command outcome timeout log_output).host_id = host.id ∧
    (run_command_with_timeout host command outcome timeout log_output).command = command ∧
    ((run_command_with_timeout host command outcome timeout log_output).success = true ↔
      (run_command_with_timeout host command outcome timeout log_output).return_code = some 0) ∧
    (outcome = .runTimeout →
      (run_command_with_timeout host command outcome timeout log_output).timed_out = true ∧
      (run_command_with_timeout host command outcome timeout log_output).return_code = none) ∧
    (∀ e : String, AsyncSSHClient.run (.error e) =
      { returncode := 1, stdout := "", stderr := e }) := by
  cases outcome <;>
    simp [run_command_with_timeout, run_command_with_timeout_full, AsyncSSHClient.run] <;>
    split <;> simp

/-- Witness for C10 at a concrete input: the timeout path of a concrete
command on a concrete host. -/
theorem run_command_result_shape_witness :
    (run_command_with_timeout host0 "uptime" .runTimeout 60 true).timed_out = true ∧
    (run_command_with_timeout host0 "uptime" .runTimeout 60 true).return_code = none ∧
    AsyncSSHClient.run (.error "boom") = { returncode := 1, stdout := "", stderr := "boom" } := by
  have h := run_command_result_shape host0 "uptime" .runTimeout 60 true
  exact ⟨(h.2.2.2.1 rfl).1, (h.2.2.2.1 rfl).2, h.2.2.2.2 "boom"⟩

/-- C5 counterexample: a connection manager configured with 3 retries against
an always-failing target performs only two backoff sleeps, of 1s and 2s —
there is no third sleep of at least 4s before the error is raised, contrary
to the claimed 1s, 2s, 4s backoff sequence. -/
theorem connect_backoff_cex :
    ((connect_always_failing "10.0.0.5" 3 (fun _ => "Connection refused") "7.03").2.1 = [1, 2]) ∧
    ((connect_always_failing "10.0.0.5" 3 (fun _ => "Connection refused") "7.03").2.1.length = 2) := by
  exact ⟨rfl, rfl⟩

/-- C5 (amended): with 3 retries against an always-failing target, connect
issues exactly 3 attempts, sleeps 1s and then 2s between consecutive
attempts (2^k seconds after the (k+1)-th failure, with no sleep after the
final attempt), and then raises an SSHConnectionError whose message carries
the attempt count, the elapsed wall-clock time and the text of the last
underlying exception. -/
theorem connect_three_retries (host elapsed : String) (errs : Nat → String) :
    connect_always_failing host 3 errs elapsed =
      (3, [1, 2], connectFailureMessage host 3 elapsed (errs 2)) := by
  rfl

/-- C9 counterexample: when the awaited command times out,
`run_command_with_timeout` returns with the session still open — the opened
session is never closed on that exit path. -/
theorem session_leak_on_timeout_cex :
    (run_command_with_timeout_full host0 "uptime" .runTimeout 60 true).2 =
      [.opened] ∧
    sessionsBalanced (run_command_with_timeout_full host0 "uptime" .runTimeout 60 true).2 = false := by
  decide

/-- C9 (amended): the `get_ssh_client` context manager closes its session on
every exit path (connect failure opens none; otherwise the finally block
closes it whether or not the body raises), and `run_command_with_timeout`
closes its session when the command returns (success or non-zero exit) or
when the connect itself fails, but leaves the session open when the command
times out or raises. -/
theorem session_close_paths (connectOk bodyRaises : Bool) (host : Host)
    (cmd : String) (rc : Int) (out err msg : String) (t : Nat) (log : Bool) :
    sessionsBalanced (get_ssh_client_sessions connectOk bodyRaises) = true ∧
    sessionsBalanced (run_command_with_timeout_full host cmd (.runOk rc out err) t log).2 = true ∧
    sessionsBalanced (run_command_with_timeout_full host cmd (.connectFail msg) t log).2 = true ∧
    sessionsBalanced (run_command_with_timeout_full host cmd .runTimeout t log).2 = false ∧
    sessionsBalanced (run_command_with_timeout_full host cmd (.runSSHError msg) t log).2 = false ∧
    sessionsBalanced (run_command_with_timeout_full host cmd (.runOtherError msg) t log).2 = false := by
  cases connectOk <;> cases bodyRaises <;> cases log <;>
    simp [sessionsBalanced, get_ssh_client_sessions, run_command_with_timeout_full,
      List.count_cons, List.count_nil]

/-- The try block of `_run_job` handles all five job types: it never falls
through with `result = None`. -/
theorem dispatchTry_ne_ok_none (jt : JobType) (host : Host)
    (parameters : Option ParamDict) (dry : Bool) (ex : Exec) :
    dispatchTry jt host parameters dry ex ≠ .ok none := by
  cases jt <;> simp [dispatchTry] <;> split_ifs <;> simp

/-- C1: for every dispatched job, once `_run_job` returns the job status is
one of completed, failed or cancelled — never running — and an exception
escaping the invoked procedure is caught at the dispatch boundary, the job
is recorded failed and the exception text is stored in stderr. -/
theorem dispatch_leaves_terminal_status (job : JobRecord) (host? : Option Host)
    (ex : Exec) :
    ((runJobLoaded job host? ex).status = .completed ∨
     (runJobLoaded job host? ex).status = .failed ∨
     (runJobLoaded job host? ex).status = .cancelled) ∧
    (∀ (h : Host) (e : String),
      dispatchTry job.job_type h job.parameters job.is_dry_run ex = .error e →
      (runJobLoaded job (some h) ex).status = .failed ∧
      (runJobLoaded job (some h) ex).stderr = some ("Error executing job: " ++ e)) := by
  constructor
  · match host? with
    | none => simp [runJobLoaded]
    | some h =>
      match hd : dispatchTry job.job_type h job.parameters job.is_dry_run ex with
      | .error e => simp [runJobLoaded, hd]
      | .ok none => exact absurd hd (dispatchTry_ne_ok_none _ _ _ _ _)
      | .ok (some r) =>
        simp only [runJobLoaded, hd]
        cases hr : r.success <;> simp [hr]
  · intro h e hd
    simp [runJobLoaded, hd]

/-- Witness for C1: a custom-command job with no command raises a ValueError
inside the try block; the dispatch boundary catches it, the final status is
failed and stderr carries the exception text. -/
theorem dispatch_leaves_terminal_status_witness :
    (runJobLoaded { job_type := .custom_command, status := .pending,
                    is_dry_run := false, parameters := none }
        (some host0) exAllOk).status = .failed ∧
    (runJobLoaded { job_type := .custom_command, status := .pending,
                    is_dry_run := false, parameters := none }
        (some host0) exAllOk).stderr =
      some ("Error executing job: " ++ "No command specified for custom job") := by
  exact (dispatch_leaves_terminal_status
    { job_type := .custom_command, status := .pending,
      is_dry_run := false, parameters := none } (some host0) exAllOk).2
    host0 "No command specified for custom job" rfl

/-- C2 counterexample: a job already cancelled is nevertheless dispatched:
`_run_job` performs no status check, transitions the cancelled job to
running (stamping started_at) and executes it to completion. -/
theorem cancelled_job_still_dispatched_cex :
    ((runJobLoaded { job_type := .custom_command, status := .cancelled,
                     is_dry_run := false,
                     parameters := some { command := some "ls" } }
        (some host0) exAllOk).started_at = true) ∧
    ((runJobLoaded { job_type := .custom_command, status := .cancelled,
                     is_dry_run := false,
                     parameters := some { command := some "ls" } }
        (some host0) exAllOk).status = .completed) := by
  decide

/-- C2 (amended): cancellation is accepted exactly while the status is
pending (cancelling a non-pending job is rejected with HTTP 400 and the row
is unchanged; cancelling a pending job marks it cancelled); the dispatcher,
however, performs no status check: `_run_job` transitions every job it
processes — whatever its current status, including cancelled — to running
and executes it. -/
theorem cancel_only_pending_but_dispatch_unchecked :
    (∀ job : JobRecord, job.status ≠ .pending → cancel_job job = .error 400) ∧
    (∀ job : JobRecord, job.status = .pending →
      cancel_job job = .ok { job with status := .cancelled, completed_at := true }) ∧
    (∀ (job : JobRecord) (h : Host) (ex : Exec),
      (runJobLoaded job (some h) ex).started_at = true) := by
  refine ⟨?_, ?_, ?_⟩
  · intro job hne
    simp [cancel_job, hne]
  · intro job hp
    simp [cancel_job, hp]
  · intro job h ex
    match hd : dispatchTry job.job_type h job.parameters job.is_dry_run ex with
    | .error e => simp [runJobLoaded, hd]
    | .ok none => simp [runJobLoaded, hd]
    | .ok (some r) => simp [runJobLoaded, hd]

/-- Witness for C2 (amended) at concrete inputs: a running job cannot be
cancelled, a pending job can, and a dispatched pending job is started. -/
theorem cancel_only_pending_but_dispatch_unchecked_witness :
    cancel_job { job_type := .custom_command, status := .running,
                 is_dry_run := false, parameters := none } = .error 400 ∧
    cancel_job { job_type := .custom_command, status := .pending,
                 is_dry_run := false, parameters := none } =
      .ok { job_type := .custom_command, status := .cancelled,
            is_dry_run := false, parameters := none, completed_at := true } ∧
    (runJobLoaded { job_type := .custom_command, status := .pending,
                    is_dry_run := false, parameters := some { command := some "ls" } }
        (some host0) exAllOk).started_at = true := by
  refine ⟨?_, ?_, ?_⟩
  · exact cancel_only_pending_but_dispatch_unchecked.1
      { job_type := .custom_command, status := .running,
        is_dry_run := false, parameters := none } (by decide)
  · exact cancel_only_pending_but_dispatch_unchecked.2.1
      { job_type := .custom_command, status := .pending,
        is_dry_run := false, parameters := none } rfl
  · exact cancel_only_pending_but_dispatch_unchecked.2.2
      { job_type := .custom_command, status := .pending,
        is_dry_run := false, parameters := some { command := some "ls" } }
      host0 exAllOk

/-- A remote world on which every command succeeds and prints Found. -/
def exFound : Exec := fun _ => .runOk 0 "Found" ""

/-- C6: when the existence check of the install-directory marker reports
Found (as it does after a successful first run), both the forwarder and the
Cribl leader install procedures short-circuit immediately after that check:
they return success = true with skipped = true, record no commands, and the
existence check is the only command executed on the host. -/
theorem install_skip_when_already_installed (host : Host) (p : Option ParamDict)
    (ex : Exec) :
    (strIn "Found" ((run_command_with_timeout host
          (uf_check_cmd ((p.getD {}).install_dir.getD "/opt"))
          (ex (uf_check_cmd ((p.getD {}).install_dir.getD "/opt")))).stdout.getD "") = true →
      (install_splunk_universal_forwarder host p ex).1.success = true ∧
      (install_splunk_universal_forwarder host p ex).1.skipped = true ∧
      (install_splunk_universal_forwarder host p ex).1.commands = [] ∧
      (install_splunk_universal_forwarder host p ex).2 =
        [uf_check_cmd ((p.getD {}).install_dir.getD "/opt")]) ∧
    (strIn "Found" ((run_command_with_timeout host
          (cribl_check_cmd ((p.getD {}).install_dir.getD "/opt"))
          (ex (cribl_check_cmd ((p.getD {}).install_dir.getD "/opt")))).stdout.getD "") = true →
      (install_cribl_leader host p ex).1.success = true ∧
      (install_cribl_leader host p ex).1.skipped = true ∧
      (install_cribl_leader host p ex).1.commands = [] ∧
      (install_cribl_leader host p ex).2 =
        [cribl_check_cmd ((p.getD {}).install_dir.getD "/opt")]) := by
  constructor
  · intro h
    simp [install_splunk_universal_forwarder, h]
  · intro h
    simp [install_cribl_leader, h]

/-- Witness for C6 at concrete inputs: a host whose existence check prints
Found makes both installers skip. -/
theorem install_skip_when_already_installed_witness :
    (install_splunk_universal_forwarder host0 none exFound).1.success = true ∧
    (install_splunk_universal_forwarder host0 none exFound).1.skipped = true ∧
    (install_splunk_universal_forwarder host0 none exFound).2 = [uf_check_cmd "/opt"] ∧
    (install_cribl_leader host0 none exFound).1.skipped = true := by
  have h := install_skip_when_already_installed host0 none exFound
  have h1 := h.1 (by decide)
  have h2 := h.2 (by decide)
  exact ⟨h1.1, h1.2.1, h1.2.2.2, h2.2.1⟩

/-- C7 counterexample: a dry-run forwarder install against a host whose
existence check reports the tool installed returns success = true but an
EMPTY command sequence, contradicting the claim that every dry-run outcome
has a non-empty command sequence. -/
theorem dry_run_empty_commands_cex :
    (install_splunk_universal_forwarder host0 (some { is_dry_run := some true })
        exFound).1.is_dry_run = true ∧
    (install_splunk_universal_forwarder host0 (some { is_dry_run := some true })
        exFound).1.success = true ∧
    (install_splunk_universal_forwarder host0 (some { is_dry_run := some true })
        exFound).1.commands = [] := by
  decide

/-- C7 (amended): a procedure invoked with is_dry_run = true returns
success = true and executes nothing mutating on the host — for the forwarder
install only the read-only existence check runs, and for the custom-command
procedure nothing runs at all; the recorded command sequence is non-empty
except when the existence check already reports the tool installed, in which
case the procedure skips with an empty command sequence. -/
theorem dry_run_success_no_mutation (host : Host) (p : ParamDict) (ex : Exec) :
    (p.is_dry_run = some true →
      (install_splunk_universal_forwarder host (some p) ex).1.success = true ∧
      (install_splunk_universal_forwarder host (some p) ex).2 =
        [uf_check_cmd (p.install_dir.getD "/opt")] ∧
      ((install_splunk_universal_forwarder host (some p) ex).1.skipped = true →
        (install_splunk_universal_forwarder host (some p) ex).1.commands = []) ∧
      ((install_splunk_universal_forwarder host (some p) ex).1.skipped = false →
        (install_splunk_universal_forwarder host (some p) ex).1.commands ≠ [])) ∧
    (p.is_dry_run = some true → p.command.isSome →
      (run_custom_command host (some p) ex).1.success = true ∧
      (run_custom_command host (some p) ex).2 = [] ∧
      (run_custom_command host (some p) ex).1.commands ≠ []) := by
  constructor
  · intro h
    by_cases hc : strIn "Found" ((run_command_with_timeout host
        (uf_check_cmd (p.install_dir.getD "/opt"))
        (ex (uf_check_cmd (p.install_dir.getD "/opt")))).stdout.getD "") = true
    · simp [install_splunk_universal_forwarder, h, hc]
    · simp [install_splunk_universal_forwarder, h, hc, installStep, Bind.bind, Except.bind, Pure.pure, Except.pure]
  · intro h hcmd
    have hk : p.hasKey "command" = true := by
      simp [ParamDict.hasKey, hcmd]
    by_cases hu : p.run_user.getD "root" = "root" <;>
      simp [run_custom_command, h, hk, hu, installStep, Bind.bind, Except.bind, Pure.pure, Except.pure]

/-- Witness for C7 at concrete inputs: a dry-run forwarder install against a
fresh host and a dry-run custom command. -/
theorem dry_run_success_no_mutation_witness :
    (install_splunk_universal_forwarder host0 (some { is_dry_run := some true })
        exAllOk).1.success = true ∧
    (install_splunk_universal_forwarder host0 (some { is_dry_run := some true })
        exAllOk).2 = [uf_check_cmd "/opt"] ∧
    (run_custom_command host0
        (some { is_dry_run := some true, command := some "whoami" }) exAllOk).1.success = true ∧
    (run_custom_command host0
        (some { is_dry_run := some true, command := some "whoami" }) exAllOk).2 = [] := by
  have h1 := (dry_run_success_no_mutation host0 { is_dry_run := some true } exAllOk).1 rfl
  have h2 := (dry_run_success_no_mutation host0
    { is_dry_run := some true, command := some "whoami" } exAllOk).2 rfl (by decide)
  exact ⟨h1.1, h1.2.1, h2.1, h2.2.1⟩

/-- A remote world on which every command succeeds silently except the
forwarder post-install verification, which exits non-zero. -/
def exVerifyFail : Exec := fun c =>
  if c = uf_verify_cmd "/opt" then .runOk 1 "" "splunkd is not running"
  else .runOk 0 "" ""

/-- A remote world on which every command succeeds silently except the Cribl
service verification, which exits non-zero. -/
def exCriblVerifyFail : Exec := fun c =>
  if c = "systemctl status cribl.service" then .runOk 1 "" "inactive"
  else .runOk 0 "" ""

/-- C3 counterexample: a forwarder install in which every step succeeds but
the post-install verification exits non-zero returns success = false — not
success = true — and the job ends failed, not completed. -/
theorem verification_failure_cex :
    (install_splunk_universal_forwarder host0 none exVerifyFail).1.success = false ∧
    (install_splunk_universal_forwarder host0 none exVerifyFail).1.message =
      some "Installation completed but verification failed" ∧
    (runJobLoaded { job_type := .splunk_uf_install, status := .pending,
                    is_dry_run := false, parameters := none }
        (some host0) exVerifyFail).status = .failed := by
  decide

/-- C3 (amended): a failing post-install verification (non-zero status
command) does NOT downgrade to a completed-with-warning outcome: both the
forwarder and the Cribl-leader procedures return success = false with message
"Installation completed but verification failed" (the cleanup step is also
skipped), and the job therefore ends failed. -/
theorem verification_failure_fails_procedure (host : Host) (ex ex2 : Exec)
    (vout verr vout2 verr2 : String) :
    ((∀ c, c ≠ uf_verify_cmd "/opt" → ex c = .runOk 0 "" "") →
     ex (uf_verify_cmd "/opt") = .runOk 1 vout verr →
     (install_splunk_universal_forwarder host none ex).1.success = false ∧
     (install_splunk_universal_forwarder host none ex).1.message =
       some "Installation completed but verification failed" ∧
     (runJobLoaded { job_type := .splunk_uf_install, status := .pending,
                     is_dry_run := false, parameters := none }
         (some host) ex).status = .failed) ∧
    ((∀ c, c ≠ "systemctl status cribl.service" → ex2 c = .runOk 0 "" "") →
     ex2 "systemctl status cribl.service" = .runOk 1 vout2 verr2 →
     (install_cribl_leader host none ex2).1.success = false ∧
     (install_cribl_leader host none ex2).1.message =
       some "Installation completed but verification failed" ∧
     (runJobLoaded { job_type := .cribl_leader_install, status := .pending,
                     is_dry_run := false, parameters := none }
         (some host) ex2).status = .failed) := by
  have hf : strIn "Found" "" = false := by decide
  constructor
  · intro hok hv
    have h0 := hok (uf_check_cmd "/opt") (by decide)
    have h1 := hok "mkdir -p /tmp/splunk_install" (by decide)
    have h2 := hok (uf_download_cmd "9.1.1") (by decide)
    have h3 := hok (create_user_cmd "splunk" "splunk") (by decide)
    have h4 := hok (uf_extract_cmd "/opt") (by decide)
    have h5 := hok (uf_chown_cmd "splunk" "splunk" "/opt") (by decide)
    have h6 := hok (uf_seed_cmd "/opt" "changeme") (by decide)
    have h7 := hok (uf_start_cmd "/opt") (by decide)
    have h8 := hok (uf_boot_cmd "/opt" "splunk") (by decide)
    simp [install_splunk_universal_forwarder, installStep, h0, h1, h2, h3, h4,
      h5, h6, h7, h8, hv, hf, run_command_with_timeout,
      run_command_with_timeout_full, Bind.bind, Except.bind, Pure.pure,
      Except.pure, InstallResult.updateCmd, runJobLoaded, dispatchTry,
      InstallResult.toDispatch]
  · intro hok hv
    have h0 := hok (cribl_check_cmd "/opt") (by decide)
    have h1 := hok "mkdir -p /tmp/cribl_install" (by decide)
    have h2 := hok (cribl_download_cmd "3.4.1") (by decide)
    have h3 := hok (create_user_cmd "cribl" "cribl") (by decide)
    have h4 := hok (cribl_extract_cmd "/opt") (by decide)
    have h5 := hok (cribl_chown_cmd "cribl" "cribl" "/opt") (by decide)
    have h6 := hok "cd /opt/cribl && ./bin/cribl mode-master" (by decide)
    have h7 := hok (cribl_passwd_cmd "/opt" "admin123") (by decide)
    have h8 := hok (cribl_systemd_cmd "Cribl Stream Leader" "cribl" "cribl" "/opt") (by decide)
    have h9 := hok "systemctl daemon-reload && systemctl enable cribl.service" (by decide)
    have h10 := hok "systemctl start cribl.service" (by decide)
    simp [install_cribl_leader, installStep, h0, h1, h2, h3, h4, h5, h6, h7,
      h8, h9, h10, hv, hf, run_command_with_timeout,
      run_command_with_timeout_full, Bind.bind, Except.bind, Pure.pure,
      Except.pure, InstallResult.updateCmd, runJobLoaded, dispatchTry,
      InstallResult.toDispatch]

/-- Witness for C3 (amended) at concrete worlds where only the verification
command fails. -/
theorem verification_failure_fails_procedure_witness :
    (install_splunk_universal_forwarder host0 none exVerifyFail).1.success = false ∧
    (install_cribl_leader host0 none exCriblVerifyFail).1.success = false := by
  have h := verification_failure_fails_procedure host0 exVerifyFail
    exCriblVerifyFail "" "splunkd is not running" "" "inactive"
  have h1 := h.1 (fun c hc => by simp [exVerifyFail, hc]) (by simp [exVerifyFail])
  have h2 := h.2 (fun c hc => by simp [exCriblVerifyFail, hc]) (by simp [exCriblVerifyFail])
  exact ⟨h1.1, h2.1⟩

/-- Forwarder-install parameters with an empty admin password. -/
def pEmptyPw : ParamDict :=
  { version := some "9.4.3", user := some "splunk", admin_password := some "" }

/-- C4 counterexample: submitting a forwarder-install job whose
admin_password is the empty string is NOT rejected — the route creates the
pending job (it only checks that the keys version and user are present) —
and dispatching it sends commands to the host (the trace is non-empty). -/
theorem empty_admin_password_accepted_cex :
    create_splunk_uf_install_job true pEmptyPw false =
      .ok { job_type := .splunk_uf_install, status := .pending,
            is_dry_run := false, parameters := some pEmptyPw } ∧
    (install_splunk_universal_forwarder host0 (some pEmptyPw) exAllOk).2.length = 11 := by
  exact ⟨rfl, by decide⟩

/-- C4 (amended): the forwarder-install route validates only that the KEYS
version and user are present in the parameters dictionary (values, empty or
not, are never inspected, and admin_password is not required — the installer
defaults it to changeme); consequently a job with an empty admin_password is
created as pending, and its dispatch still sends commands to the host,
starting with the existence check. -/
theorem uf_job_validation_presence_only (hostExists : Bool)
    (parameters : ParamDict) (dry : Bool) (host : Host) (ex : Exec) :
    (create_splunk_uf_install_job hostExists parameters dry =
        .ok { job_type := .splunk_uf_install, status := .pending,
              is_dry_run := dry, parameters := some parameters } ↔
      (hostExists = true ∧ parameters.version.isSome = true ∧
        parameters.user.isSome = true)) ∧
    ((∀ c, ex c = .runOk 0 "" "") →
      (install_splunk_universal_forwarder host (some parameters) ex).2 ≠ [] ∧
      (install_splunk_universal_forwarder host (some parameters) ex).2.head? =
        some (uf_check_cmd (parameters.install_dir.getD "/opt"))) := by
  have hf : strIn "Found" "" = false := by decide
  constructor
  · cases hostExists <;>
      by_cases hv : parameters.version.isSome <;>
      by_cases hu : parameters.user.isSome <;>
        simp [create_splunk_uf_install_job, uf_required_params,
          ParamDict.hasKey, List.filter, hv, hu]
  · intro hok
    by_cases hd : parameters.is_dry_run.getD false = true <;>
      simp [install_splunk_universal_forwarder, installStep, hok, hd, hf,
        run_command_with_timeout, run_command_with_timeout_full, Bind.bind,
        Except.bind, Pure.pure, Except.pure]

/-- Witness for C4 (amended) at concrete inputs. -/
theorem uf_job_validation_presence_only_witness :
    create_splunk_uf_install_job true pEmptyPw false =
      .ok { job_type := .splunk_uf_install, status := .pending,
            is_dry_run := false, parameters := some pEmptyPw } ∧
    (install_splunk_universal_forwarder host0 (some pEmptyPw) exAllOk).2.head? =
      some (uf_check_cmd "/opt") := by
  have h := uf_job_validation_presence_only true pEmptyPw false host0 exAllOk
  exact ⟨h.1.mpr (by decide), (h.2 (fun c => rfl)).2⟩

/-- A fresh host: the existence check prints Not Found and every command
succeeds. -/
def exFresh : Exec := fun _ => .runOk 0 "Not Found" ""

/-- The forwarder-install parameters of the specified scenario. -/
def pFresh : ParamDict :=
  { version := some "9.4.3", admin_password := some "x", user := some "splunk" }

/-- C8: evaluation of the dispatched forwarder installer at the failing
input — a fresh host whose existence check prints Not Found.  Because
"Found" is a substring of "Not Found", the installer short-circuits as
already installed: the job completes with skipped = true after executing
ONLY the existence check, and the claimed sequence (user/group create,
download, integrity check, extract, chown, seed write, start, boot-start,
verify, cleanup) is never issued.  The dispatched installer
(backend/installers/splunk.py) contains no integrity-check step at all —
the HTML-error-page rejection lives only in the unused
backend/automation/splunk_installer.py variant. -/
theorem fresh_install_short_circuits :
    strIn "Found" "Not Found" = true ∧
    (install_splunk_universal_forwarder host0 (some pFresh) exFresh).1.skipped = true ∧
    (install_splunk_universal_forwarder host0 (some pFresh) exFresh).1.success = true ∧
    (install_splunk_universal_forwarder host0 (some pFresh) exFresh).2 =
      [uf_check_cmd "/opt"] ∧
    (runJobLoaded { job_type := .splunk_uf_install, status := .pending,
                    is_dry_run := false, parameters := some pFresh }
        (some host0) exFresh).status = .completed := by
  decide
